import Mathlib

/-!
Verification of the task-tracking CRUD service (`app/database.py` and
`app/app.py`) against its natural-language specification.

The data-access layer is embedded as pure functions over an explicit
database state (`DB`): a list of rows plus the AUTOINCREMENT sequence
counter of the `tasks` table.  The HTTP layer is embedded as functions
from a parsed JSON request body to a response value paired with the
resulting database state.  Python-level dynamic typing of JSON values
(needed because the handlers call `.strip()` on arbitrary values and
test truthiness) is captured by the `JVal` type; a Python `None` —
whether from an absent key or an explicit JSON `null` — is represented
by `Option.none`.
-/

namespace TodoApp

/-- A JSON value as delivered by `request.get_json`.  Only the shapes the
handlers can actually receive in a field position are modelled. -/
inductive JVal where
  | jnull
  | jstr (s : String)
  | jint (n : Int)
  | jbool (b : Bool)
  deriving Repr, DecidableEq

/-- A parsed JSON object body: association list of keys to values.
`request.get_json(force=True, silent=True)` yields `none` for an
unparsable body and `some` of this for a JSON object. -/
def RequestData : Type := List (String × JVal)

instance : DecidableEq RequestData := by
  unfold RequestData
  infer_instance

/-- Model of `data.get(k, default)`: the stored value when the key is present
(a stored JSON `null` is Python `None`, i.e. `Option.none`), otherwise
the default. -/
def dictGet (d : RequestData) (k : String) (dflt : Option JVal) : Option JVal :=
  match List.lookup k d with
  | none => dflt
  | some JVal.jnull => none
  | some v => some v

/-- Model of `data.get(k)`: absent key and JSON `null` both give Python `None`. -/
def pyGet (d : RequestData) (k : String) : Option JVal :=
  dictGet d k none

/-- Python truthiness of a handler-level value (`if not title`). -/
def truthy : Option JVal → Bool
  | none => false
  | some JVal.jnull => false
  | some (JVal.jstr s) => !s.isEmpty
  | some (JVal.jint n) => decide (n ≠ 0)
  | some (JVal.jbool b) => b

/-- Model of `s.strip()` on a Python string: drop leading and trailing
whitespace.  (Defined structurally over the character list so that it
evaluates by kernel reduction.) -/
def pyTrim (s : String) : String :=
  String.mk (((s.data.dropWhile Char.isWhitespace).reverse.dropWhile
    Char.isWhitespace).reverse)

/-- Model of `v.strip()`: defined only on strings; on any other value the
attribute access raises (modelled as `none`). -/
def pyStrip : Option JVal → Option String
  | some (JVal.jstr s) => some (pyTrim s)
  | _ => none

/-- Coerce a handler-level value to the string the storage layer will
receive; only ever applied on paths where the value is a string. -/
def asStr : Option JVal → Option String
  | some (JVal.jstr s) => some s
  | _ => none

/-- One row of the `tasks` table.  `title` and `status` are `NOT NULL`
text columns; `description` and `due_date` store whatever value the
handler passed through (possibly SQL `NULL`, i.e. `none`). -/
structure Task where
  id : Nat
  title : String
  description : Option JVal
  due_date : Option JVal
  status : String
  deriving Repr, DecidableEq

/-- Database state: the rows of the `tasks` table in insertion order and
the `AUTOINCREMENT` sequence value (largest id ever assigned; it is not
decreased by deletes, so ids are never reused). -/
structure DB where
  rows : List Task
  seq : Nat
  deriving Repr, DecidableEq

/-- State after `init_db`: the freshly created empty table. -/
def init_db : DB := ⟨[], 0⟩

/-- Model of `create_task`: INSERT the four supplied columns, return
`cursor.lastrowid` (the next value of the AUTOINCREMENT sequence). -/
def create_task (title : String) (description due_date : Option JVal)
    (status : String) (db : DB) : Nat × DB :=
  let task_id := db.seq + 1
  (task_id, ⟨db.rows ++ [⟨task_id, title, description, due_date, status⟩], task_id⟩)

/-- Insert a task into a list kept in descending-id order. -/
def insertDesc (t : Task) : List Task → List Task
  | [] => [t]
  | u :: us => if u.id ≤ t.id then t :: u :: us else u :: insertDesc t us

/-- Sort a row list by descending id (the effect of `ORDER BY id DESC`). -/
def sortByIdDesc : List Task → List Task
  | [] => []
  | t :: ts => insertDesc t (sortByIdDesc ts)

/-- Model of `get_all_tasks`: `SELECT * FROM tasks ORDER BY id DESC`. -/
def get_all_tasks (db : DB) : List Task :=
  sortByIdDesc db.rows

/-- Model of `get_task_by_id`: `SELECT * FROM tasks WHERE id = ?`, `none` when no
row matches. -/
def get_task_by_id (task_id : Nat) (db : DB) : Option Task :=
  db.rows.find? (fun t => t.id == task_id)

/-- Model of `update_task`: first an explicit existence check (`SELECT id ... WHERE
id = ?`), returning `false` when no row has the id; then a dynamic
UPDATE overwriting exactly the columns whose argument is not `None`.
With zero supplied fields the UPDATE is skipped and `true` is returned. -/
def update_task (task_id : Nat) (title : Option String)
    (description due_date : Option JVal) (status : Option String)
    (db : DB) : Bool × DB :=
  match db.rows.find? (fun t => t.id == task_id) with
  | none => (false, db)
  | some _ =>
    (true, ⟨db.rows.map (fun t =>
      if t.id == task_id then
        { t with
          title := title.getD t.title
          description := description.or t.description
          due_date := due_date.or t.due_date
          status := status.getD t.status }
      else t), db.seq⟩)

/-- Model of `delete_task`: `DELETE FROM tasks WHERE id = ?`; success iff
`cursor.rowcount > 0`, i.e. iff at least one row was removed. -/
def delete_task (task_id : Nat) (db : DB) : Bool × DB :=
  let remaining := db.rows.filter (fun t => !(t.id == task_id))
  (decide (remaining.length < db.rows.length), ⟨remaining, db.seq⟩)

/-- An HTTP response: `jsonify(x), code`.  `task` carries the (possibly
`None`) record handed to `jsonify`; `error` and `message` carry the
string under the `error` / `message` key. -/
inductive Resp where
  | task (code : Nat) (t : Option Task)
  | tasks (code : Nat) (ts : List Task)
  | error (code : Nat) (msg : String)
  | message (code : Nat) (msg : String)
  deriving Repr, DecidableEq

/-- The status enum accepted by the handlers. -/
def valid_statuses : List String := ["pending", "in_progress", "completed"]

/-- Whether a handler-level value is a string in the status enum
(`status not in valid_statuses` is `False` exactly in this case). -/
def statusValid : Option JVal → Bool
  | some (JVal.jstr st) => valid_statuses.contains st
  | _ => false

/-- Handler `POST /api/tasks` (`api_create_task`): validate body presence, a
truthy title whose `.strip()` is non-empty (a non-string truthy title
raises, caught as 500), and the status enum with default `'pending'`;
then insert and re-fetch the created row. -/
def api_create_task (body : Option RequestData) (db : DB) : Resp × DB :=
  match body with
  | none => (Resp.error 400 "No data provided", db)
  | some data =>
    if data.isEmpty then (Resp.error 400 "No data provided", db)
    else
      let title := pyGet data "title"
      if !truthy title then (Resp.error 400 "Title is required", db)
      else
        match pyStrip title with
        | none => (Resp.error 500 "Internal server error", db)
        | some stripped =>
          if stripped.isEmpty then (Resp.error 400 "Title is required", db)
          else
            let description := pyGet data "description"
            let due_date := pyGet data "due_date"
            let status := dictGet data "status" (some (JVal.jstr "pending"))
            match status with
            | some (JVal.jstr st) =>
              if valid_statuses.contains st then
                let r := create_task stripped description due_date st db
                (Resp.task 201 (get_task_by_id r.1 r.2), r.2)
              else
                (Resp.error 400 "Status must be one of: pending, in_progress, completed", db)
            | _ =>
              (Resp.error 400 "Status must be one of: pending, in_progress, completed", db)

/-- Handler `GET /api/tasks` (`api_get_all_tasks`). -/
def api_get_all_tasks (db : DB) : Resp × DB :=
  (Resp.tasks 200 (get_all_tasks db), db)

/-- Handler `GET /api/tasks/<id>` (`api_get_task`). -/
def api_get_task (task_id : Nat) (db : DB) : Resp × DB :=
  match get_task_by_id task_id db with
  | none => (Resp.error 404 "Task not found", db)
  | some t => (Resp.task 200 (some t), db)

/-- Tail of `api_update_task` after validation: call the storage update,
map `False` to 404, otherwise re-fetch and return the record. -/
def api_update_apply (task_id : Nat) (title : Option String)
    (description due_date : Option JVal) (status : Option String)
    (db : DB) : Resp × DB :=
  let r := update_task task_id title description due_date status db
  if !r.1 then (Resp.error 404 "Task not found", r.2)
  else (Resp.task 200 (get_task_by_id task_id r.2), r.2)

/-- Handler `PUT /api/tasks/<id>` (`api_update_task`): validate body presence,
the status enum when a status is supplied, and a non-blank `.strip()`
when a title is supplied (a non-string title raises, caught as 500);
then delegate to the storage update.  Note the title is passed through
verbatim, not stripped. -/
def api_update_task (task_id : Nat) (body : Option RequestData) (db : DB) : Resp × DB :=
  match body with
  | none => (Resp.error 400 "No data provided", db)
  | some data =>
    if data.isEmpty then (Resp.error 400 "No data provided", db)
    else
      let title := pyGet data "title"
      let description := pyGet data "description"
      let due_date := pyGet data "due_date"
      let status := pyGet data "status"
      if status.isSome && !statusValid status then
        (Resp.error 400 "Status must be one of: pending, in_progress, completed", db)
      else
        match title with
        | some (JVal.jstr s) =>
          if (pyTrim s).isEmpty then (Resp.error 400 "Title cannot be empty", db)
          else api_update_apply task_id (some s) description due_date (asStr status) db
        | some _ => (Resp.error 500 "Internal server error", db)
        | none => api_update_apply task_id none description due_date (asStr status) db

/-- Handler `DELETE /api/tasks/<id>` (`api_delete_task`). -/
def api_delete_task (task_id : Nat) (db : DB) : Resp × DB :=
  let r := delete_task task_id db
  if !r.1 then (Resp.error 404 "Task not found", r.2)
  else (Resp.message 200 "Task deleted successfully", r.2)

/-- Well-formedness of a reachable database state: every assigned id is
bounded by the sequence counter, and rows are in strictly increasing id
order (so ids are unique). -/
def DB.WF (db : DB) : Prop :=
  (∀ t ∈ db.rows, t.id ≤ db.seq) ∧ db.rows.Pairwise (fun a b => a.id < b.id)

instance (db : DB) : Decidable db.WF := by
  unfold DB.WF
  infer_instance

/-! ### Helper lemmas -/

/-- The function `pyStrip` succeeds exactly on string values, returning the trim. -/
theorem pyStrip_eq_some (x : Option JVal) (r : String) (h : pyStrip x = some r) :
    ∃ s, x = some (JVal.jstr s) ∧ r = pyTrim s := by
  cases x with
  | none => simp [pyStrip] at h
  | some v =>
    cases v with
    | jstr s =>
      refine ⟨s, rfl, ?_⟩
      simpa [pyStrip] using h.symm
    | jnull => simp [pyStrip] at h
    | jint n => simp [pyStrip] at h
    | jbool b => simp [pyStrip] at h

/-- The freshly inserted row is the one found by a lookup of the fresh id,
provided every pre-existing id is bounded by the old sequence value. -/
theorem find?_fresh (rows : List Task) (seq : Nat)
    (hb : ∀ t ∈ rows, t.id ≤ seq) (new : Task) (hnew : new.id = seq + 1) :
    (rows ++ [new]).find? (fun t => t.id == seq + 1) = some new := by
  rw [List.find?_append]
  have h1 : rows.find? (fun t => t.id == seq + 1) = none := by
    rw [List.find?_eq_none]
    intro x hx
    simp only [beq_iff_eq]
    exact Nat.ne_of_lt (Nat.lt_succ_of_le (hb x hx))
  rw [h1, Option.none_or]
  exact List.find?_cons_of_pos [] (by simp [hnew])

/-- Mapping an id-preserving per-row rewrite across the table commutes
with looking up a given id. -/
theorem find?_map_ite (l : List Task) (tid : Nat) (g : Task → Task)
    (hg : ∀ t, (g t).id = t.id) (t0 : Task)
    (h : l.find? (fun t => t.id == tid) = some t0) :
    (l.map (fun t => if t.id == tid then g t else t)).find?
      (fun t => t.id == tid) = some (g t0) := by
  induction l with
  | nil => simp at h
  | cons x xs ih =>
    by_cases hx : (x.id == tid) = true
    · rw [List.find?_cons_of_pos xs hx] at h
      injection h with h
      subst h
      rw [List.map_cons, if_pos hx]
      exact List.find?_cons_of_pos _ (by simp only [hg]; exact hx)
    · rw [List.find?_cons_of_neg xs hx] at h
      rw [List.map_cons, if_neg hx, List.find?_cons_of_neg]
      · exact ih h
      · exact hx

/-- Updating a row keeps its id. -/
theorem update_row_id (tid : Nat) (title : Option String)
    (description due_date : Option JVal) (status : Option String) (t : Task) :
    (if t.id == tid then
      ({ t with
          title := title.getD t.title
          description := description.or t.description
          due_date := due_date.or t.due_date
          status := status.getD t.status } : Task)
     else t).id = t.id := by
  split <;> rfl

/-- The operation `update_task` on a present id reports success and the re-fetched row
carries exactly the supplied fields over the old ones. -/
theorem update_task_found (tid : Nat) (title status : Option String)
    (desc due : Option JVal) (db : DB) (t0 : Task)
    (h : get_task_by_id tid db = some t0) :
    (update_task tid title desc due status db).1 = true ∧
    get_task_by_id tid (update_task tid title desc due status db).2 =
      some { id := t0.id, title := title.getD t0.title,
             description := desc.or t0.description,
             due_date := due.or t0.due_date,
             status := status.getD t0.status } := by
  unfold get_task_by_id at h
  unfold update_task
  rw [h]
  refine ⟨rfl, ?_⟩
  unfold get_task_by_id
  have := find?_map_ite db.rows tid
    (fun t => { t with
        title := title.getD t.title
        description := desc.or t.description
        due_date := due.or t.due_date
        status := status.getD t.status }) (fun t => rfl) t0 h
  simpa using this

/-- The operation `update_task` on an absent id reports failure and leaves the state
untouched. -/
theorem update_task_missing (tid : Nat) (title status : Option String)
    (desc due : Option JVal) (db : DB)
    (h : get_task_by_id tid db = none) :
    update_task tid title desc due status db = (false, db) := by
  unfold get_task_by_id at h
  unfold update_task
  rw [h]

/-- The operation `delete_task` on an absent id reports failure and leaves the state
untouched. -/
theorem delete_task_missing (tid : Nat) (db : DB)
    (h : get_task_by_id tid db = none) :
    delete_task tid db = (false, db) := by
  unfold get_task_by_id at h
  rw [List.find?_eq_none] at h
  have hfil : db.rows.filter (fun t => !(t.id == tid)) = db.rows := by
    rw [List.filter_eq_self]
    intro a ha
    simpa using h a ha
  unfold delete_task
  simp only [hfil]
  simp

/-- Inserting below a list of strictly larger ids appends at the end. -/
theorem insertDesc_of_lt (t : Task) (l : List Task)
    (h : ∀ u ∈ l, t.id < u.id) : insertDesc t l = l ++ [t] := by
  induction l with
  | nil => rfl
  | cons u us ih =>
    have hu : ¬ u.id ≤ t.id := Nat.not_le_of_lt (h u (List.mem_cons_self u us))
    unfold insertDesc
    rw [if_neg hu, ih (fun x hx => h x (List.mem_cons_of_mem u hx))]
    rfl

/-- On a table already in strictly ascending id order, `ORDER BY id DESC`
is exactly list reversal. -/
theorem sortByIdDesc_of_sorted (l : List Task)
    (h : l.Pairwise fun a b => a.id < b.id) : sortByIdDesc l = l.reverse := by
  induction l with
  | nil => rfl
  | cons x xs ih =>
    have hx : ∀ u ∈ xs, x.id < u.id := fun u hu => (List.pairwise_cons.mp h).1 u hu
    unfold sortByIdDesc
    rw [ih h.of_cons]
    rw [insertDesc_of_lt x xs.reverse (fun u hu => hx u (List.mem_reverse.mp hu))]
    simp

/-- Deleting a present id from a duplicate-free table removes exactly one
row. -/
theorem filter_remove_one (l : List Task) (tid : Nat)
    (hp : l.Pairwise fun a b => a.id < b.id)
    (hmem : (l.find? (fun t => t.id == tid)).isSome = true) :
    (l.filter (fun t => !(t.id == tid))).length + 1 = l.length := by
  induction l with
  | nil => simp at hmem
  | cons x xs ih =>
    by_cases hx : (x.id == tid) = true
    · have hxid : x.id = tid := by simpa using hx
      have hrest : xs.filter (fun t => !(t.id == tid)) = xs := by
        rw [List.filter_eq_self]
        intro a ha
        have : x.id < a.id := (List.pairwise_cons.mp hp).1 a ha
        simp only [Bool.not_eq_eq_eq_not, Bool.not_true, beq_eq_false_iff_ne]
        omega
      simp only [List.filter_cons, hx, Bool.not_true, if_false, hrest]
      simp
    · have hxb : (!(x.id == tid)) = true := by simpa using hx
      rw [List.find?_cons_of_neg xs hx] at hmem
      simp only [List.filter_cons, hxb, if_true, List.length_cons]
      rw [Nat.succ_add]
      exact congrArg Nat.succ (ih hp.of_cons hmem)

/-- The operation `create_task` preserves well-formedness. -/
theorem create_task_WF (ti : String) (d du : Option JVal) (st : String)
    (db : DB) (hwf : db.WF) : ((create_task ti d du st db).2).WF := by
  obtain ⟨hb, hp⟩ := hwf
  simp only [create_task]
  constructor
  · intro t ht
    rcases List.mem_append.mp ht with h | h
    · exact Nat.le_succ_of_le (hb t h)
    · rcases List.mem_singleton.mp h with rfl
      exact Nat.le_refl _
  · rw [List.pairwise_append]
    refine ⟨hp, List.pairwise_singleton _ _, ?_⟩
    intro a ha b hb'
    rcases List.mem_singleton.mp hb' with rfl
    exact Nat.lt_succ_of_le (hb a ha)

/-- The operation `update_task` preserves well-formedness. -/
theorem update_task_WF (tid : Nat) (title status : Option String)
    (desc due : Option JVal) (db : DB) (hwf : db.WF) :
    ((update_task tid title desc due status db).2).WF := by
  obtain ⟨hb, hp⟩ := hwf
  unfold update_task
  cases hfind : db.rows.find? (fun t => t.id == tid) with
  | none => exact ⟨hb, hp⟩
  | some t =>
    constructor
    · intro u hu
      rcases List.mem_map.mp hu with ⟨v, hv, rfl⟩
      rw [update_row_id]
      exact hb v hv
    · rw [List.pairwise_map]
      refine hp.imp_of_mem ?_
      intro a b _ _ hab
      rw [update_row_id, update_row_id]
      exact hab

/-- The operation `delete_task` preserves well-formedness. -/
theorem delete_task_WF (tid : Nat) (db : DB) (hwf : db.WF) :
    ((delete_task tid db).2).WF := by
  obtain ⟨hb, hp⟩ := hwf
  constructor
  · intro t ht
    exact hb t (List.mem_of_mem_filter ht)
  · exact hp.filter _

/-! ### Claim theorems -/

/-- C2 counterexample: a zero-field update against the nonexistent id 1 on
the empty database returns `false`, not `true` as the claim states. -/
theorem c2_zero_field_update_cex :
    (update_task 1 none none none none init_db).1 = false := by decide

/-- C2 (amended): `update_task` with zero supplied fields still performs
the explicit existence check first: it returns `true` (leaving the state
untouched) exactly when a row with the id exists, and `false` for a
nonexistent id. -/
theorem c2_zero_field_update (tid : Nat) (db : DB) :
    update_task tid none none none none db =
      ((db.rows.find? (fun t => t.id == tid)).isSome, db) := by
  unfold update_task
  cases hfind : db.rows.find? (fun t => t.id == tid) with
  | none => simp
  | some t =>
    simp only [Option.isSome_some]
    have hmap : (fun t =>
        if t.id == tid then
          ({ t with
              title := (none : Option String).getD t.title
              description := (none : Option JVal).or t.description
              due_date := (none : Option JVal).or t.due_date
              status := (none : Option String).getD t.status } : Task)
        else t) = fun t => t := by
      funext u
      rcases u with ⟨i, ti, d, du, st⟩
      simp
    rw [hmap, List.map_id']

/-- C3 (confirmed): updating an existing task with any subset of the four
fields overwrites exactly the supplied fields (an empty string counts as
supplied) and leaves every unspecified field at its prior stored value,
as observed by a re-fetch. -/
theorem c3_subset_update_frame (tid : Nat) (title status : Option String)
    (desc due : Option JVal) (db : DB) (t0 : Task)
    (h : get_task_by_id tid db = some t0) :
    (update_task tid title desc due status db).1 = true ∧
    get_task_by_id tid (update_task tid title desc due status db).2 =
      some { id := t0.id, title := title.getD t0.title,
             description := desc.or t0.description,
             due_date := due.or t0.due_date,
             status := status.getD t0.status } :=
  update_task_found tid title status desc due db t0 h

/-- C3 witness: on a one-row database, updating only `status` and
`description` (the latter to the empty string) leaves `title` and
`due_date` unchanged and overwrites the two supplied fields. -/
theorem c3_subset_update_frame_witness :
    get_task_by_id 1 (DB.mk
        [Task.mk 1 "a" (some (JVal.jstr "d")) (some (JVal.jstr "2025-12-31")) "pending"] 1) =
      some (Task.mk 1 "a" (some (JVal.jstr "d")) (some (JVal.jstr "2025-12-31")) "pending") ∧
    ((update_task 1 none (some (JVal.jstr "")) none (some "completed") (DB.mk
        [Task.mk 1 "a" (some (JVal.jstr "d")) (some (JVal.jstr "2025-12-31")) "pending"] 1)).1
        = true ∧
     get_task_by_id 1 (update_task 1 none (some (JVal.jstr "")) none (some "completed") (DB.mk
        [Task.mk 1 "a" (some (JVal.jstr "d")) (some (JVal.jstr "2025-12-31")) "pending"] 1)).2 =
      some (Task.mk 1 "a" (some (JVal.jstr "")) (some (JVal.jstr "2025-12-31")) "completed")) :=
  ⟨by decide, c3_subset_update_frame 1 none (some "completed") (some (JVal.jstr "")) none
    (DB.mk [Task.mk 1 "a" (some (JVal.jstr "d")) (some (JVal.jstr "2025-12-31")) "pending"] 1)
    (Task.mk 1 "a" (some (JVal.jstr "d")) (some (JVal.jstr "2025-12-31")) "pending")
    (by decide)⟩

/-- C5 (confirmed): against an id with no stored row, GET returns 404, PUT
with a body passing validation returns 404, and DELETE returns 404, and
each of the three leaves the stored state unchanged. -/
theorem c5_missing_id_404 (tid : Nat) (db : DB) (data : RequestData)
    (hne : get_task_by_id tid db = none)
    (hdata : data ≠ [])
    (htitle : pyGet data "title" = none ∨
      ∃ s, pyGet data "title" = some (JVal.jstr s) ∧ pyTrim s ≠ "")
    (hstatus : pyGet data "status" = none ∨
      statusValid (pyGet data "status") = true) :
    api_get_task tid db = (Resp.error 404 "Task not found", db) ∧
    api_update_task tid (some data) db = (Resp.error 404 "Task not found", db) ∧
    api_delete_task tid db = (Resp.error 404 "Task not found", db) := by
  have hemp : ¬ data.isEmpty = true := fun hc => hdata (List.isEmpty_iff.mp hc)
  have hcond : ((pyGet data "status").isSome && !statusValid (pyGet data "status")) = false := by
    rcases hstatus with h | h
    · rw [h]; rfl
    · rw [h]; simp
  have happly : ∀ title, api_update_apply tid title (pyGet data "description")
      (pyGet data "due_date") (asStr (pyGet data "status")) db =
      (Resp.error 404 "Task not found", db) := by
    intro title
    unfold api_update_apply
    rw [update_task_missing tid title (asStr (pyGet data "status"))
      (pyGet data "description") (pyGet data "due_date") db hne]
    rfl
  refine ⟨?_, ?_, ?_⟩
  · unfold api_get_task
    rw [hne]
  · simp only [api_update_task]
    rw [if_neg hemp, hcond]
    simp only [Bool.false_eq_true, if_false]
    rcases htitle with h | ⟨s, h, htrim⟩
    · rw [h]
      exact happly none
    · rw [h]
      have hie : ¬ (pyTrim s).isEmpty = true := fun hc => htrim ((String.isEmpty_iff (pyTrim s)).mp hc)
      simp only [if_neg hie]
      exact happly (some s)
  · unfold api_delete_task
    rw [delete_task_missing tid db hne]
    rfl

/-- C5 witness: GET, a validation-passing PUT, and DELETE of id 1 on the
empty database each answer 404 and leave the database empty. -/
theorem c5_missing_id_404_witness :
    get_task_by_id 1 init_db = none ∧
    ([(("title" : String), JVal.jstr "x")] ≠ ([] : RequestData)) ∧
    (api_get_task 1 init_db = (Resp.error 404 "Task not found", init_db) ∧
     api_update_task 1 (some [(("title" : String), JVal.jstr "x")]) init_db =
       (Resp.error 404 "Task not found", init_db) ∧
     api_delete_task 1 init_db = (Resp.error 404 "Task not found", init_db)) :=
  ⟨by decide, by decide,
    c5_missing_id_404 1 init_db [(("title" : String), JVal.jstr "x")] (by decide) (by decide)
      (Or.inr ⟨"x", by decide, by decide⟩) (Or.inl (by decide))⟩

/-- C1 counterexample: the accepted payload with title `" a "` (non-blank,
no status) is stored and returned with title `"a"`: the created record
does not reproduce the supplied title byte-for-byte, because POST trims
it. -/
theorem c1_create_roundtrip_cex :
    api_create_task (some [(("title" : String), JVal.jstr " a ")]) init_db =
      (Resp.task 201 (some (Task.mk 1 "a" none none "pending")),
       DB.mk [Task.mk 1 "a" none none "pending"] 1) ∧
    ("a" : String) ≠ " a " := by decide

/-- Full characterization of a successful POST: the accepted record
re-fetches intact with trimmed title and supplied (or defaulted)
fields. -/
theorem create_roundtrip_spec (data : RequestData) (db db' : DB) (t : Task)
    (hwf : db.WF)
    (h : api_create_task (some data) db = (Resp.task 201 (some t), db')) :
    get_task_by_id t.id db' = some t ∧
    (∃ s, pyGet data "title" = some (JVal.jstr s) ∧ t.title = pyTrim s) ∧
    t.description = pyGet data "description" ∧
    t.due_date = pyGet data "due_date" ∧
    dictGet data "status" (some (JVal.jstr "pending")) = some (JVal.jstr t.status) := by
  simp only [api_create_task] at h
  split at h
  · exact absurd h (by simp)
  · split at h
    · exact absurd h (by simp)
    · split at h
      · exact absurd h (by simp)
      next stripped hstrip =>
        split at h
        · exact absurd h (by simp)
        · split at h
          next st hstat =>
            split at h
            · rw [Prod.mk.injEq] at h
              obtain ⟨h1, h2⟩ := h
              rw [Resp.task.injEq] at h1
              obtain ⟨-, h3⟩ := h1
              simp only [create_task] at h2 h3
              have hget : get_task_by_id (db.seq + 1)
                  (DB.mk (db.rows ++
                    [Task.mk (db.seq + 1) stripped (pyGet data "description")
                      (pyGet data "due_date") st]) (db.seq + 1)) =
                  some (Task.mk (db.seq + 1) stripped (pyGet data "description")
                    (pyGet data "due_date") st) := by
                unfold get_task_by_id
                exact find?_fresh db.rows db.seq hwf.1 _ rfl
              rw [hget] at h3
              obtain ⟨s, hs, hst⟩ := pyStrip_eq_some _ _ hstrip
              subst h2
              injection h3 with h3
              subst h3
              exact ⟨hget, ⟨s, hs, hst⟩, rfl, rfl, hstat⟩
            · exact absurd h (by simp)
          · exact absurd h (by simp)

/-- C1 (amended): every payload accepted by POST (response 201) round-trips
through get-by-id on the assigned id, except that the stored `title` is
the supplied title with surrounding whitespace stripped; `description`,
`due_date` and `status` are stored exactly as supplied, with `status`
defaulting to `"pending"` when the key is absent. -/
theorem c1_create_roundtrip (data : RequestData) (db db' : DB) (t : Task)
    (hwf : db.WF)
    (h : api_create_task (some data) db = (Resp.task 201 (some t), db')) :
    get_task_by_id t.id db' = some t ∧
    (∃ s, pyGet data "title" = some (JVal.jstr s) ∧ t.title = pyTrim s) ∧
    t.description = pyGet data "description" ∧
    t.due_date = pyGet data "due_date" ∧
    dictGet data "status" (some (JVal.jstr "pending")) = some (JVal.jstr t.status) :=
  create_roundtrip_spec data db db' t hwf h

/-- C1 witness: creating from the payload
`{"title": "Buy milk", "description": "d"}` on the empty well-formed
database yields id 1 and the record re-fetches with exactly the supplied
fields and the default status. -/
theorem c1_create_roundtrip_witness :
    DB.WF init_db ∧
    api_create_task (some [(("title" : String), JVal.jstr "Buy milk"),
        (("description" : String), JVal.jstr "d")]) init_db =
      (Resp.task 201 (some (Task.mk 1 "Buy milk" (some (JVal.jstr "d")) none "pending")),
       DB.mk [Task.mk 1 "Buy milk" (some (JVal.jstr "d")) none "pending"] 1) ∧
    (get_task_by_id 1 (DB.mk [Task.mk 1 "Buy milk" (some (JVal.jstr "d")) none "pending"] 1) =
       some (Task.mk 1 "Buy milk" (some (JVal.jstr "d")) none "pending") ∧
     (∃ s, pyGet [(("title" : String), JVal.jstr "Buy milk"),
        (("description" : String), JVal.jstr "d")] "title" = some (JVal.jstr s) ∧
        ("Buy milk" : String) = pyTrim s) ∧
     (some (JVal.jstr "d") : Option JVal) = pyGet [(("title" : String), JVal.jstr "Buy milk"),
        (("description" : String), JVal.jstr "d")] "description" ∧
     (none : Option JVal) = pyGet [(("title" : String), JVal.jstr "Buy milk"),
        (("description" : String), JVal.jstr "d")] "due_date" ∧
     dictGet [(("title" : String), JVal.jstr "Buy milk"),
        (("description" : String), JVal.jstr "d")] "status" (some (JVal.jstr "pending")) =
       some (JVal.jstr "pending")) :=
  ⟨by decide, by decide,
   c1_create_roundtrip [(("title" : String), JVal.jstr "Buy milk"),
      (("description" : String), JVal.jstr "d")] init_db
      (DB.mk [Task.mk 1 "Buy milk" (some (JVal.jstr "d")) none "pending"] 1)
      (Task.mk 1 "Buy milk" (some (JVal.jstr "d")) none "pending")
      (by decide) (by decide)⟩

/-- C4 (confirmed): a PUT whose body carries a blank (all-whitespace)
title or an out-of-enum status is answered 400 and the database state is
returned unchanged: validation rejects before any storage call. -/
theorem c4_put_validation_rejects (tid : Nat) (data : RequestData) (db : DB)
    (hval : (∃ s, pyGet data "title" = some (JVal.jstr s) ∧ pyTrim s = "") ∨
            ((pyGet data "status").isSome = true ∧
             statusValid (pyGet data "status") = false)) :
    ∃ msg, api_update_task tid (some data) db = (Resp.error 400 msg, db) := by
  by_cases hemp : data.isEmpty = true
  · exact ⟨"No data provided", by simp only [api_update_task]; rw [if_pos hemp]⟩
  by_cases hcond : ((pyGet data "status").isSome && !statusValid (pyGet data "status")) = true
  · refine ⟨"Status must be one of: pending, in_progress, completed", ?_⟩
    simp only [api_update_task]
    rw [if_neg hemp, if_pos hcond]
  · rcases hval with ⟨s, hs, htrim⟩ | ⟨h1, h2⟩
    · refine ⟨"Title cannot be empty", ?_⟩
      simp only [api_update_task]
      rw [if_neg hemp, if_neg hcond]
      simp only [hs]
      rw [if_pos ((String.isEmpty_iff (pyTrim s)).mpr htrim)]
    · exact absurd (by rw [h1, h2]; rfl) hcond

/-- C4 witness: a PUT of `{"status": "bogus"}` against id 1 on the empty
database is answered 400 with the state unchanged. -/
theorem c4_put_validation_rejects_witness :
    ((∃ s, pyGet [(("status" : String), JVal.jstr "bogus")] "title" =
        some (JVal.jstr s) ∧ pyTrim s = "") ∨
     ((pyGet [(("status" : String), JVal.jstr "bogus")] "status").isSome = true ∧
      statusValid (pyGet [(("status" : String), JVal.jstr "bogus")] "status") = false)) ∧
    ∃ msg, api_update_task 1 (some [(("status" : String), JVal.jstr "bogus")]) init_db =
      (Resp.error 400 msg, init_db) :=
  ⟨Or.inr (by decide),
   c4_put_validation_rejects 1 [(("status" : String), JVal.jstr "bogus")] init_db
     (Or.inr (by decide))⟩

/-- C10 (confirmed): a POST body whose title is a truthy non-string value
is answered 500 (the `.strip()` attribute access raises and is caught by
the catch-all handler), not a 400 validation error, and no row is
persisted. -/
theorem c10_nonstring_title_500 (data : RequestData) (db : DB) (v : JVal)
    (hv : pyGet data "title" = some v)
    (hns : asStr (some v) = none)
    (htr : truthy (some v) = true) :
    api_create_task (some data) db = (Resp.error 500 "Internal server error", db) := by
  have hdata : ¬ data.isEmpty = true := by
    intro hc
    rw [List.isEmpty_iff.mp hc] at hv
    simp [pyGet, dictGet, List.lookup] at hv
  have hstrip : pyStrip (some v) = none := by
    cases v with
    | jstr s => simp [asStr] at hns
    | jnull => rfl
    | jint n => rfl
    | jbool b => rfl
  simp only [api_create_task]
  rw [if_neg hdata, hv, htr]
  simp only [Bool.not_true, Bool.false_eq_true, if_false, hstrip]

/-- C10 witness: POSTing `{"title": 5}` to the empty database yields 500
and leaves the database empty. -/
theorem c10_nonstring_title_500_witness :
    pyGet [(("title" : String), JVal.jint 5)] "title" = some (JVal.jint 5) ∧
    asStr (some (JVal.jint 5)) = none ∧
    truthy (some (JVal.jint 5)) = true ∧
    api_create_task (some [(("title" : String), JVal.jint 5)]) init_db =
      (Resp.error 500 "Internal server error", init_db) :=
  ⟨by decide, by decide, by decide,
   c10_nonstring_title_500 [(("title" : String), JVal.jint 5)] init_db (JVal.jint 5)
     (by decide) (by decide) (by decide)⟩

/-- Inversion of the post-validation tail of PUT: a 200 response means
the storage update succeeded and the body is the re-fetched record. -/
theorem api_update_apply_ok (tid : Nat) (title : Option String)
    (desc due : Option JVal) (status : Option String) (db db' : DB)
    (t' : Option Task)
    (h : api_update_apply tid title desc due status db = (Resp.task 200 t', db')) :
    update_task tid title desc due status db = (true, db') ∧
    t' = get_task_by_id tid db' := by
  simp only [api_update_apply] at h
  by_cases hu : (update_task tid title desc due status db).1 = true
  · rw [hu] at h
    simp only [Bool.not_true, Bool.false_eq_true, if_false] at h
    rw [Prod.mk.injEq] at h
    obtain ⟨h1, h2⟩ := h
    rw [Resp.task.injEq] at h1
    refine ⟨?_, ?_⟩
    · rw [Prod.ext_iff]
      exact ⟨hu, h2⟩
    · rw [← h1.2, h2]
  · rw [Bool.not_eq_true] at hu
    rw [hu] at h
    simp at h

/-- Inversion of PUT: a 200 response means the storage update ran with
exactly the handler-extracted field values and succeeded. -/
theorem api_update_task_ok (tid : Nat) (data : RequestData) (db db' : DB)
    (t' : Option Task)
    (h : api_update_task tid (some data) db = (Resp.task 200 t', db')) :
    update_task tid (asStr (pyGet data "title")) (pyGet data "description")
      (pyGet data "due_date") (asStr (pyGet data "status")) db = (true, db') ∧
    t' = get_task_by_id tid db' := by
  simp only [api_update_task] at h
  split at h
  · exact absurd h (by simp)
  · split at h
    · exact absurd h (by simp)
    · split at h
      next s hs =>
        split at h
        · exact absurd h (by simp)
        · rw [hs]
          exact api_update_apply_ok tid (some s) (pyGet data "description")
            (pyGet data "due_date") (asStr (pyGet data "status")) db db' t' h
      next hns =>
        exact absurd h (by simp)
      next hnone =>
        rw [hnone]
        exact api_update_apply_ok tid none (pyGet data "description")
          (pyGet data "due_date") (asStr (pyGet data "status")) db db' t' h

/-- C6 (confirmed): listing returns every stored row in strictly
descending id order (on a well-formed state: the reverse of insertion
order); empty storage lists as the empty sequence; a create adds exactly
one row and a delete of a present id removes exactly one, so N creates
and M successful deletes leave exactly N − M records. -/
theorem c6_list_all (db : DB) (hwf : db.WF) (ti : String) (d du : Option JVal)
    (st : String) (tid : Nat) :
    get_all_tasks db = db.rows.reverse ∧
    (get_all_tasks db).Pairwise (fun a b => b.id < a.id) ∧
    (db.rows = [] → get_all_tasks db = []) ∧
    (get_all_tasks db).length = db.rows.length ∧
    ((create_task ti d du st db).2).rows.length = db.rows.length + 1 ∧
    ((get_task_by_id tid db).isSome = true →
      ((delete_task tid db).2).rows.length + 1 = db.rows.length) := by
  have hrev : get_all_tasks db = db.rows.reverse :=
    sortByIdDesc_of_sorted db.rows hwf.2
  refine ⟨hrev, ?_, ?_, ?_, ?_, ?_⟩
  · rw [hrev]
    exact List.pairwise_reverse.mpr hwf.2
  · intro hz
    rw [hrev, hz]
    rfl
  · rw [hrev]
    exact List.length_reverse db.rows
  · simp [create_task]
  · intro hs
    simp only [delete_task]
    exact filter_remove_one db.rows tid hwf.2 hs

/-- C6 witness: on the two-row well-formed state the listing is the
id-descending reverse, a create pushes the count to 3 and deleting id 1
brings it back to 2. -/
theorem c6_list_all_witness :
    DB.WF (DB.mk [Task.mk 1 "a" none none "pending",
      Task.mk 2 "b" none none "completed"] 2) ∧
    (get_all_tasks (DB.mk [Task.mk 1 "a" none none "pending",
        Task.mk 2 "b" none none "completed"] 2) =
      (DB.mk [Task.mk 1 "a" none none "pending",
        Task.mk 2 "b" none none "completed"] 2).rows.reverse ∧
     (get_all_tasks (DB.mk [Task.mk 1 "a" none none "pending",
        Task.mk 2 "b" none none "completed"] 2)).Pairwise (fun a b => b.id < a.id) ∧
     ((DB.mk [Task.mk 1 "a" none none "pending",
        Task.mk 2 "b" none none "completed"] 2).rows = [] →
       get_all_tasks (DB.mk [Task.mk 1 "a" none none "pending",
        Task.mk 2 "b" none none "completed"] 2) = []) ∧
     (get_all_tasks (DB.mk [Task.mk 1 "a" none none "pending",
        Task.mk 2 "b" none none "completed"] 2)).length =
       (DB.mk [Task.mk 1 "a" none none "pending",
        Task.mk 2 "b" none none "completed"] 2).rows.length ∧
     ((create_task "c" none none "pending" (DB.mk [Task.mk 1 "a" none none "pending",
        Task.mk 2 "b" none none "completed"] 2)).2).rows.length =
       (DB.mk [Task.mk 1 "a" none none "pending",
        Task.mk 2 "b" none none "completed"] 2).rows.length + 1 ∧
     ((get_task_by_id 1 (DB.mk [Task.mk 1 "a" none none "pending",
        Task.mk 2 "b" none none "completed"] 2)).isSome = true →
       ((delete_task 1 (DB.mk [Task.mk 1 "a" none none "pending",
        Task.mk 2 "b" none none "completed"] 2)).2).rows.length + 1 =
       (DB.mk [Task.mk 1 "a" none none "pending",
        Task.mk 2 "b" none none "completed"] 2).rows.length)) :=
  ⟨by decide,
   c6_list_all (DB.mk [Task.mk 1 "a" none none "pending",
     Task.mk 2 "b" none none "completed"] 2) (by decide) "c" none none "pending" 1⟩

/-- C7 (confirmed): on a well-formed state a create assigns the fresh id
`seq + 1`, strictly above every id ever assigned (the sequence bounds
them and is never decreased by update or delete); update never changes
any row's id; and all three operations preserve well-formedness, so the
invariant holds along every operation sequence. -/
theorem c7_id_freshness (db : DB) (hwf : db.WF) (ti : String)
    (d du : Option JVal) (st : String) (tid : Nat)
    (title status : Option String) (desc due : Option JVal) :
    (create_task ti d du st db).1 = db.seq + 1 ∧
    (∀ t ∈ db.rows, t.id < (create_task ti d du st db).1) ∧
    ((create_task ti d du st db).2).seq = db.seq + 1 ∧
    ((update_task tid title desc due status db).2).rows.map (fun t => t.id) =
      db.rows.map (fun t => t.id) ∧
    ((update_task tid title desc due status db).2).seq = db.seq ∧
    ((delete_task tid db).2).seq = db.seq ∧
    DB.WF ((create_task ti d du st db).2) ∧
    DB.WF ((update_task tid title desc due status db).2) ∧
    DB.WF ((delete_task tid db).2) := by
  refine ⟨rfl, ?_, rfl, ?_, ?_, rfl, create_task_WF ti d du st db hwf,
    update_task_WF tid title status desc due db hwf, delete_task_WF tid db hwf⟩
  · intro t ht
    exact Nat.lt_succ_of_le (hwf.1 t ht)
  · unfold update_task
    cases hfind : db.rows.find? (fun t => t.id == tid) with
    | none => rfl
    | some u =>
      simp only
      rw [List.map_map]
      apply List.map_congr_left
      intro t _
      simp only [Function.comp_apply]
      exact update_row_id tid title desc due status t
  · unfold update_task
    cases db.rows.find? (fun t => t.id == tid) <;> rfl

/-- C7 witness: on a one-row well-formed state, create yields id 2 above
the existing id 1, the sequence moves to 2, and update and delete keep
ids and the sequence intact and all states well-formed. -/
theorem c7_id_freshness_witness :
    DB.WF (DB.mk [Task.mk 1 "a" none none "pending"] 1) ∧
    ((create_task "b" none none "pending"
        (DB.mk [Task.mk 1 "a" none none "pending"] 1)).1 =
      (DB.mk [Task.mk 1 "a" none none "pending"] 1).seq + 1 ∧
     (∀ t ∈ (DB.mk [Task.mk 1 "a" none none "pending"] 1).rows,
       t.id < (create_task "b" none none "pending"
         (DB.mk [Task.mk 1 "a" none none "pending"] 1)).1) ∧
     ((create_task "b" none none "pending"
        (DB.mk [Task.mk 1 "a" none none "pending"] 1)).2).seq =
      (DB.mk [Task.mk 1 "a" none none "pending"] 1).seq + 1 ∧
     ((update_task 1 (some "z") none none none
        (DB.mk [Task.mk 1 "a" none none "pending"] 1)).2).rows.map (fun t => t.id) =
      (DB.mk [Task.mk 1 "a" none none "pending"] 1).rows.map (fun t => t.id) ∧
     ((update_task 1 (some "z") none none none
        (DB.mk [Task.mk 1 "a" none none "pending"] 1)).2).seq =
      (DB.mk [Task.mk 1 "a" none none "pending"] 1).seq ∧
     ((delete_task 1 (DB.mk [Task.mk 1 "a" none none "pending"] 1)).2).seq =
      (DB.mk [Task.mk 1 "a" none none "pending"] 1).seq ∧
     DB.WF ((create_task "b" none none "pending"
        (DB.mk [Task.mk 1 "a" none none "pending"] 1)).2) ∧
     DB.WF ((update_task 1 (some "z") none none none
        (DB.mk [Task.mk 1 "a" none none "pending"] 1)).2) ∧
     DB.WF ((delete_task 1 (DB.mk [Task.mk 1 "a" none none "pending"] 1)).2)) :=
  ⟨by decide,
   c7_id_freshness (DB.mk [Task.mk 1 "a" none none "pending"] 1) (by decide)
     "b" none none "pending" 1 (some "z") none none none⟩

/-- C8 (confirmed): PUT persists the supplied title verbatim (surrounding
whitespace kept) while POST persists the trimmed title, so the two
endpoints store different values for a whitespace-padded title input. -/
theorem c8_put_title_verbatim (s : String) (tid : Nat) (db : DB) (t0 : Task)
    (data : RequestData)
    (hs : pyTrim s ≠ "")
    (h : get_task_by_id tid db = some t0)
    (hti : pyGet data "title" = some (JVal.jstr s))
    (hde : pyGet data "description" = none)
    (hdu : pyGet data "due_date" = none)
    (hst : pyGet data "status" = none) :
    get_task_by_id tid (api_update_task tid (some data) db).2 =
      some { t0 with title := s } ∧
    (∀ (db₀ db' : DB) (t : Task), db₀.WF →
      api_create_task (some data) db₀ = (Resp.task 201 (some t), db') →
      t.title = pyTrim s) := by
  constructor
  · have hemp : ¬ data.isEmpty = true := by
      intro hc
      rw [List.isEmpty_iff.mp hc] at hti
      simp [pyGet, dictGet, List.lookup] at hti
    have hie : ¬ (pyTrim s).isEmpty = true :=
      fun hc => hs ((String.isEmpty_iff (pyTrim s)).mp hc)
    have hapi : api_update_task tid (some data) db =
        api_update_apply tid (some s) none none none db := by
      simp only [api_update_task]
      rw [if_neg hemp, hst]
      simp only [Option.isSome_none, Bool.false_and, Bool.false_eq_true, if_false]
      simp only [hti, hde, hdu]
      rw [if_neg hie]
      rfl
    obtain ⟨hsucc, hafter⟩ :=
      update_task_found tid (some s) none none none db t0 h
    rw [hapi]
    simp only [api_update_apply]
    rw [hsucc]
    simpa using hafter
  · intro db₀ db' t hwf0 hcr
    obtain ⟨-, ⟨s', hs', ht'⟩, -, -, -⟩ :=
      create_roundtrip_spec data db₀ db' t hwf0 hcr
    rw [hti] at hs'
    injection hs' with hs'
    injection hs' with hs'
    rw [ht', hs']

/-- C8 witness: PUT of `{"title": " a "}` against the stored task keeps
the padding in the stored title, while POST of the same body stores the
trimmed `"a"`. -/
theorem c8_put_title_verbatim_witness :
    pyTrim " a " ≠ "" ∧
    get_task_by_id 1 (DB.mk [Task.mk 1 "x" none none "pending"] 1) =
      some (Task.mk 1 "x" none none "pending") ∧
    (get_task_by_id 1 (api_update_task 1
        (some [(("title" : String), JVal.jstr " a ")])
        (DB.mk [Task.mk 1 "x" none none "pending"] 1)).2 =
      some (Task.mk 1 " a " none none "pending") ∧
     (∀ (db₀ db' : DB) (t : Task), db₀.WF →
       api_create_task (some [(("title" : String), JVal.jstr " a ")]) db₀ =
         (Resp.task 201 (some t), db') →
       t.title = pyTrim " a ")) :=
  ⟨by decide, by decide,
   c8_put_title_verbatim " a " 1 (DB.mk [Task.mk 1 "x" none none "pending"] 1)
     (Task.mk 1 "x" none none "pending") [(("title" : String), JVal.jstr " a ")]
     (by decide) (by decide) (by decide) (by decide) (by decide) (by decide)⟩

/-- C9 (confirmed): at the PUT endpoint a field holding JSON `null` is
indistinguishable from an absent field (both reach the handler as Python
`None` and leave the stored value untouched), so a successful PUT can
never reset a non-null description or due_date back to null. -/
theorem c9_null_equals_absent :
    (∀ (k : String) (data : RequestData), List.lookup k data = some JVal.jnull →
      pyGet data k = none) ∧
    (∀ (tid : Nat) (data : RequestData) (db db' : DB) (t0 t' : Task),
      get_task_by_id tid db = some t0 →
      api_update_task tid (some data) db = (Resp.task 200 (some t'), db') →
      (t0.description.isSome = true → t'.description.isSome = true) ∧
      (t0.due_date.isSome = true → t'.due_date.isSome = true)) := by
  constructor
  · intro k data hk
    simp [pyGet, dictGet, hk]
  · intro tid data db db' t0 t' h0 hupd
    obtain ⟨hu, ht'⟩ := api_update_task_ok tid data db db' (some t') hupd
    obtain ⟨-, hafter⟩ := update_task_found tid (asStr (pyGet data "title"))
      (asStr (pyGet data "status")) (pyGet data "description")
      (pyGet data "due_date") db t0 h0
    have hdb : (update_task tid (asStr (pyGet data "title"))
        (pyGet data "description") (pyGet data "due_date")
        (asStr (pyGet data "status")) db).2 = db' := by
      rw [hu]
    rw [hdb] at hafter
    rw [hafter] at ht'
    injection ht' with ht'
    subst ht'
    constructor <;> intro hsome
    · cases hx : pyGet data "description" <;> simp [hx, hsome]
    · cases hx : pyGet data "due_date" <;> simp [hx, hsome]

/-- C9 witness: a body whose `description` key holds JSON `null` reaches
the handler as `None`, exactly as if the key were absent. -/
theorem c9_null_equals_absent_witness :
    List.lookup "description" [(("description" : String), JVal.jnull)] =
      some JVal.jnull ∧
    pyGet [(("description" : String), JVal.jnull)] "description" = none :=
  ⟨by decide,
   c9_null_equals_absent.1 "description" [(("description" : String), JVal.jnull)]
     (by decide)⟩

end TodoApp
